import Mathlib

/-!
Verification development for the Shopping-app server's user-account,
token and authorization model.  The definitions below are a shallow
embedding of the Mongoose user schema module (its schema defaults,
static methods and instance methods); timestamps are milliseconds as
natural numbers, the database is a list of user records, and the
external `jsonwebtoken` and `bcrypt` collaborators are modelled as
tamper-evident values and an abstract hash.
-/

namespace ShoppingApp

/-- Signing secrets: the two distinct configuration values `JWT_SECRET`
and `REFRESH_TOKEN` imported by the user model. -/
inductive Secret where
  | jwtSecret
  | refreshTokenSecret
deriving DecidableEq

/-- Payload embedded by `generateToken` into access and refresh tokens:
id, email, role and the current tokenVersion. -/
structure SessionPayload where
  id : String
  email : String
  role : String
  tokenVersion : Nat
deriving DecidableEq

/-- Payload embedded into email-verification and password-reset tokens:
id and email only. -/
structure EmailPayload where
  id : String
  email : String
deriving DecidableEq

/-- Model of a value produced by `jwt.sign(payload, secret, expiresIn)`:
the payload, the secret it was signed with, and the lifetime window. -/
structure Jwt (α : Type) where
  payload : α
  secret : Secret
  issuedAt : Nat
  lifetimeMs : Nat
deriving DecidableEq

def jwtSign (payload : α) (secret : Secret) (now lifetimeMs : Nat) : Jwt α :=
  { payload := payload, secret := secret, issuedAt := now, lifetimeMs := lifetimeMs }

/-- Model of `jwt.verify(token, secret)`: fails with `JsonWebTokenError`
under the wrong secret and with `TokenExpiredError` past the lifetime. -/
def jwtVerify (t : Jwt α) (secret : Secret) (now : Nat) : Except String α :=
  if t.secret ≠ secret then Except.error "JsonWebTokenError"
  else if t.issuedAt + t.lifetimeMs ≤ now then Except.error "TokenExpiredError"
  else Except.ok t.payload

/-- Abstract model of the external `bcrypt.hash` collaborator. -/
def bcryptHash (password : String) : String :=
  String.append "bcrypt2b10" password

/-- Abstract model of `bcrypt.compare(password, hash)`. -/
def bcryptCompare (password hash : String) : Bool :=
  decide (bcryptHash password = hash)

/-- User record, after the fields of `userSchema` used by the
authentication and authorization slice. -/
structure User where
  id : String
  name : String
  email : String
  password : Option String
  role : String
  isActive : Bool
  phone : Option String
  isEmailVerified : Bool
  isOnline : Bool
  lastSeen : Option Nat
  tokenVersion : Nat
  emailVerificationToken : Option (Jwt EmailPayload)
  emailVerificationExpires : Option Nat
  resetPasswordToken : Option (Jwt EmailPayload)
  resetPasswordExpires : Option Nat
  refreshToken : Option (Jwt SessionPayload)
deriving DecidableEq

/-- Creation of a user record with the schema defaults: role defaults to
customer, isActive to false, isEmailVerified to false, tokenVersion to 1,
and all token and expiry columns absent. -/
def mkUser (id name email : String) (password : Option String) (role : String) : User :=
  { id := id, name := name, email := email, password := password, role := role,
    isActive := false, phone := none, isEmailVerified := false, isOnline := false,
    lastSeen := none, tokenVersion := 1, emailVerificationToken := none,
    emailVerificationExpires := none, resetPasswordToken := none,
    resetPasswordExpires := none, refreshToken := none }

/-- Embedding of `userSchema.statics.findByEmail`. -/
def findByEmail (db : List User) (email : String) : Option User :=
  db.find? fun u => decide (u.email = email)

/-- Embedding of `userSchema.methods.checkPassword`. -/
def checkPassword (u : User) (password : String) : Bool :=
  match u.password with
  | some h => bcryptCompare password h
  | none => false

/-- Embedding of `userSchema.statics.findByEmailAndValidateCredential`:
a missing user and a failing password comparison raise the same error. -/
def findByEmailAndValidateCredential (db : List User) (email password : String) :
    Except String User :=
  match findByEmail db email with
  | none => Except.error "Invalid credentials"
  | some u =>
    if checkPassword u password then Except.ok u
    else Except.error "Invalid credentials"

def accessTokenExpiryDefaultMs : Nat := 60 * 60 * 1000

def refreshTokenExpiryDefaultMs : Nat := 7 * 24 * 60 * 60 * 1000

/-- Embedding of `userSchema.methods.generateToken`: one payload of id,
email, role and tokenVersion, signed once with `JWT_SECRET` for the
access token and once with `REFRESH_TOKEN` for the refresh token. -/
def generateToken (u : User) (now accessExpiryMs refreshExpiryMs : Nat) :
    Jwt SessionPayload × Jwt SessionPayload :=
  let payload : SessionPayload :=
    { id := u.id, email := u.email, role := u.role, tokenVersion := u.tokenVersion }
  (jwtSign payload Secret.jwtSecret now accessExpiryMs,
   jwtSign payload Secret.refreshTokenSecret now refreshExpiryMs)

/-- Embedding of `userSchema.methods.invalidateAllTokens`. -/
def invalidateAllTokens (u : User) : User :=
  { u with tokenVersion := u.tokenVersion + 1 }

/-- Embedding of `userSchema.methods.verifyEmail`. -/
def verifyEmail (u : User) : User :=
  { u with
    isEmailVerified := true
    emailVerificationToken := none
    emailVerificationExpires := none }

/-- Embedding of `userSchema.methods.generateVerificationEmailToken`:
signs an id-and-email payload for 24 hours, stores the token and the
explicit expiry timestamp on the record, and returns the token. -/
def generateVerificationEmailToken (u : User) (now : Nat) : Jwt EmailPayload × User :=
  let token := jwtSign ({ id := u.id, email := u.email } : EmailPayload)
    Secret.jwtSecret now (24 * 60 * 60 * 1000)
  (token, { u with
    emailVerificationToken := some token
    emailVerificationExpires := some (now + 24 * 60 * 60 * 1000) })

/-- Embedding of `userSchema.methods.createPasswordResetToken`:
signs an id-and-email payload for 10 minutes, stores the token and the
explicit expiry timestamp on the record, and returns the token. -/
def createPasswordResetToken (u : User) (now : Nat) : Jwt EmailPayload × User :=
  let token := jwtSign ({ id := u.id, email := u.email } : EmailPayload)
    Secret.jwtSecret now (10 * 60 * 1000)
  (token, { u with
    resetPasswordToken := some token
    resetPasswordExpires := some (now + 10 * 60 * 1000) })

/-- Embedding of `userSchema.methods.resetPassword` together with the
pre-save hook that bcrypt-hashes a modified password. -/
def resetPassword (u : User) (newPassword : String) : User :=
  { u with
    password := some (bcryptHash newPassword)
    resetPasswordToken := none
    resetPasswordExpires := none }

/-- Embedding of `userSchema.methods.toggleEmailVerification`. -/
def toggleEmailVerification (u : User) : User :=
  let u2 := { u with isEmailVerified := !u.isEmailVerified }
  if u2.isEmailVerified then
    { u2 with
      emailVerificationToken := none
      emailVerificationExpires := none }
  else u2

/-- Embedding of `userSchema.methods.activate` (the notification
collaborator's side effect is outside the record state). -/
def activate (u : User) : User :=
  { u with isActive := true }

/-- Embedding of `userSchema.methods.deactivate`: clears the active flag
and bumps the token version in the same record mutation. -/
def deactivate (u : User) : User :=
  { u with
    isActive := false
    tokenVersion := u.tokenVersion + 1 }

/-- Embedding of `userSchema.methods.setOnline`. -/
def setOnline (u : User) (now : Nat) : User :=
  { u with
    isOnline := true
    lastSeen := some now }

/-- Embedding of `userSchema.methods.setOffline`. -/
def setOffline (u : User) (now : Nat) : User :=
  { u with
    isOnline := false
    lastSeen := some now }

/-- Embedding of `userSchema.methods.updateRefreshToken`. -/
def updateRefreshToken (u : User) (t : Jwt SessionPayload) : User :=
  { u with refreshToken := some t }

/-- Embedding of `userSchema.methods.clearRefreshToken`. -/
def clearRefreshToken (u : User) : User :=
  { u with refreshToken := none }

/-- Embedding of `userSchema.methods.refreshTokens` restricted to its
effect on the record: stores the newly minted refresh token. -/
def refreshTokens (u : User) (now : Nat) : User :=
  updateRefreshToken u
    (generateToken u now accessTokenExpiryDefaultMs refreshTokenExpiryDefaultMs).2

/-- Embedding of `userSchema.methods.canDeactivateUser`. -/
def canDeactivateUser (u : User) (targetUserId currentUserRole : String) : Bool :=
  if currentUserRole = "admin" ∧ u.id ≠ targetUserId then true
  else if currentUserRole ≠ "admin" ∧ u.id = targetUserId then true
  else false

/-- Embedding of `userSchema.methods.canInvalidateTokens`. -/
def canInvalidateTokens (u : User) (targetUserId currentUserRole : String) : Bool :=
  decide (currentUserRole = "admin") || decide (u.id = targetUserId)

/-- The record-mutating instance methods of the user model, as one
operation type used to state record-wide invariants. -/
inductive UserOp where
  | activateOp
  | deactivateOp
  | invalidateAllTokensOp
  | verifyEmailOp
  | toggleEmailVerificationOp
  | resetPasswordOp (newPassword : String)
  | generateVerificationEmailTokenOp (now : Nat)
  | createPasswordResetTokenOp (now : Nat)
  | updateRefreshTokenOp (t : Jwt SessionPayload)
  | clearRefreshTokenOp
  | setOnlineOp (now : Nat)
  | setOfflineOp (now : Nat)
  | refreshTokensOp (now : Nat)

def applyUserOp (op : UserOp) (u : User) : User :=
  match op with
  | .activateOp => activate u
  | .deactivateOp => deactivate u
  | .invalidateAllTokensOp => invalidateAllTokens u
  | .verifyEmailOp => verifyEmail u
  | .toggleEmailVerificationOp => toggleEmailVerification u
  | .resetPasswordOp pw => resetPassword u pw
  | .generateVerificationEmailTokenOp now => (generateVerificationEmailToken u now).2
  | .createPasswordResetTokenOp now => (createPasswordResetToken u now).2
  | .updateRefreshTokenOp t => updateRefreshToken u t
  | .clearRefreshTokenOp => clearRefreshToken u
  | .setOnlineOp now => setOnline u now
  | .setOfflineOp now => setOffline u now
  | .refreshTokensOp now => refreshTokens u now

/-- Modelled from the spec: the Session Middleware's token-version
comparison (the middleware file itself is not among the sources; the
spec says it compares the token's embedded tokenVersion to the user's
current stored tokenVersion and fails on mismatch). -/
def sessionVersionCheck (t : Jwt SessionPayload) (u : User) : Bool :=
  decide (t.payload.tokenVersion = u.tokenVersion)

/-- Predicate of the `findOne` filter used by `findResetToken`: the
stored reset token matches and the stored expiry is strictly in the
future. -/
def resetTokenLive (v : User) (token : Jwt EmailPayload) (now : Nat) : Bool :=
  decide (v.resetPasswordToken = some token) &&
    (match v.resetPasswordExpires with
     | some e => decide (now < e)
     | none => false)

/-- Embedding of `userSchema.statics.findResetToken`. -/
def findResetToken (db : List User) (token : Jwt EmailPayload) (now : Nat) :
    Except String User :=
  match db.find? (fun v => resetTokenLive v token now) with
  | none => Except.error "Invalid or expired token"
  | some u => Except.ok u

/-- Predicate of the `findOne` filter used by `findByVerificationToken`:
the id matches the decoded payload, the stored verification token
matches, and the stored expiry is strictly in the future. -/
def verificationTokenLive (v : User) (decodedId : String) (token : Jwt EmailPayload)
    (now : Nat) : Bool :=
  decide (v.id = decodedId) && decide (v.emailVerificationToken = some token) &&
    (match v.emailVerificationExpires with
     | some e => decide (now < e)
     | none => false)

/-- Embedding of `userSchema.statics.findByVerificationToken`.  The
source throws `Invalid or expired verification token` inside its own
`try` block when no record matches; the surrounding `catch` intercepts
that throw (its name is `Error`, not a jwt error name) and re-throws
the fall-through `Invalid verification token`, so that is the error
that escapes in the no-match case. -/
def findByVerificationToken (db : List User) (token : Jwt EmailPayload) (now : Nat) :
    Except String User :=
  match jwtVerify token Secret.jwtSecret now with
  | Except.error e =>
    if e = "TokenExpiredError" then Except.error "Verification token has expired"
    else Except.error "Invalid verification token"
  | Except.ok decoded =>
    match db.find? (fun v => verificationTokenLive v decoded.id token now) with
    | none => Except.error "Invalid verification token"
    | some u => Except.ok u

/-- Persisting one saved record back into the collection, keyed by id. -/
def updateUser (db : List User) (u : User) : List User :=
  db.map fun v => if v.id = u.id then u else v

/-- The password-reset consumption path: `findResetToken` followed by
`resetPassword` and a save of the record. -/
def consumeResetToken (db : List User) (token : Jwt EmailPayload) (now : Nat)
    (newPassword : String) : Except String (User × List User) :=
  match findResetToken db token now with
  | Except.error e => Except.error e
  | Except.ok u =>
    let u2 := resetPassword u newPassword
    Except.ok (u2, updateUser db u2)

/-- The email-verification consumption path: `findByVerificationToken`
followed by `verifyEmail` and a save of the record. -/
def consumeVerificationToken (db : List User) (token : Jwt EmailPayload) (now : Nat) :
    Except String (User × List User) :=
  match findByVerificationToken db token now with
  | Except.error e => Except.error e
  | Except.ok u =>
    let u2 := verifyEmail u
    Except.ok (u2, updateUser db u2)

/-- Concrete sample token used to evaluate the development on closed
inputs: a 24-hour token signed at time 0 for user u1. -/
def tokenSample : Jwt EmailPayload :=
  jwtSign ({ id := "u1", email := "a@x.com" } : EmailPayload) Secret.jwtSecret 0
    (24 * 60 * 60 * 1000)

/-- Sample record holding tokenSample in both the reset and the
verification columns with stored expiry 1000. -/
def userWithStoredTokens : User :=
  { mkUser "u1" "A" "a@x.com" none "customer" with
    resetPasswordToken := some tokenSample
    resetPasswordExpires := some 1000
    emailVerificationToken := some tokenSample
    emailVerificationExpires := some 1000 }

/-- Sample record holding tokenSample in both columns with a stored
expiry of 100, already past at time 200. -/
def userWithExpiredTokens : User :=
  { mkUser "u1" "A" "a@x.com" none "customer" with
    resetPasswordToken := some tokenSample
    resetPasswordExpires := some 100
    emailVerificationToken := some tokenSample
    emailVerificationExpires := some 100 }

/-- C1: an access token minted by `generateToken` before a call to
`invalidateAllTokens` carries a tokenVersion different from the user's
stored tokenVersion after the call, so the session check's version
comparison fails for it, while a token minted by `generateToken` after
the call carries the new stored version and passes the comparison. -/
theorem invalidateAllTokens_stales_prior_tokens (u : User)
    (n1 n2 a1 r1 a2 r2 : Nat) :
    sessionVersionCheck (generateToken u n1 a1 r1).1 (invalidateAllTokens u) = false ∧
    (generateToken u n1 a1 r1).1.payload.tokenVersion ≠
      (invalidateAllTokens u).tokenVersion ∧
    sessionVersionCheck (generateToken (invalidateAllTokens u) n2 a2 r2).1
      (invalidateAllTokens u) = true ∧
    (generateToken (invalidateAllTokens u) n2 a2 r2).1.payload.tokenVersion =
      (invalidateAllTokens u).tokenVersion := by
  refine ⟨?_, ?_, ?_, rfl⟩ <;>
    simp [sessionVersionCheck, generateToken, invalidateAllTokens, jwtSign]

/-- C2: a user record is created with tokenVersion 1, no record-mutating
instance method ever decreases tokenVersion, and both invalidation
operations (invalidateAllTokens and deactivate) strictly increase it. -/
theorem tokenVersion_starts_at_one_and_monotone :
    (∀ id name email pw role, (mkUser id name email pw role).tokenVersion = 1) ∧
    (∀ op u, u.tokenVersion ≤ (applyUserOp op u).tokenVersion) ∧
    (∀ u, u.tokenVersion < (invalidateAllTokens u).tokenVersion) ∧
    (∀ u, u.tokenVersion < (deactivate u).tokenVersion) := by
  refine ⟨fun _ _ _ _ _ => rfl, fun op u => ?_,
    fun u => Nat.lt_succ_self _, fun u => Nat.lt_succ_self _⟩
  cases op
  all_goals
    simp [applyUserOp, activate, deactivate, invalidateAllTokens, verifyEmail,
      toggleEmailVerification, resetPassword, generateVerificationEmailToken,
      createPasswordResetToken, updateRefreshToken, clearRefreshToken,
      setOnline, setOffline, refreshTokens, jwtSign]
  all_goals
    first
    | omega
    | (split <;> simp)

/-- C3: deactivate clears isActive and bumps tokenVersion by one in the
same single record mutation, so a token minted from the pre-deactivation
state never passes the version comparison against the deactivated
record. -/
theorem deactivate_couples_flag_and_version (u : User) (now a r : Nat) :
    (deactivate u).isActive = false ∧
    (deactivate u).tokenVersion = u.tokenVersion + 1 ∧
    sessionVersionCheck (generateToken u now a r).1 (deactivate u) = false := by
  refine ⟨rfl, rfl, ?_⟩
  simp [sessionVersionCheck, generateToken, deactivate, jwtSign]

/-- C4: canDeactivateUser allows exactly the admin-on-other and
non-admin-on-self combinations; an admin targeting themself and a
non-admin targeting anyone else are both denied. -/
theorem canDeactivateUser_characterization (u : User)
    (targetUserId currentUserRole : String) :
    canDeactivateUser u targetUserId currentUserRole = true ↔
      ((currentUserRole = "admin" ∧ targetUserId ≠ u.id) ∨
       (currentUserRole ≠ "admin" ∧ targetUserId = u.id)) := by
  unfold canDeactivateUser
  split_ifs with h1 h2
  · exact iff_of_true rfl (Or.inl ⟨h1.1, Ne.symm h1.2⟩)
  · exact iff_of_true rfl (Or.inr ⟨h2.1, h2.2.symm⟩)
  · refine iff_of_false (by simp) ?_
    rintro (⟨ha, hne⟩ | ⟨hna, heq⟩)
    · exact h1 ⟨ha, Ne.symm hne⟩
    · exact h2 ⟨hna, heq.symm⟩

/-- Witness for C4: an admin acting on another user's id is allowed. -/
theorem canDeactivateUser_characterization_witness :
    canDeactivateUser (mkUser "u1" "A" "a@x.com" none "admin") "u2" "admin" =
      true :=
  (canDeactivateUser_characterization
    (mkUser "u1" "A" "a@x.com" none "admin") "u2" "admin").mpr
    (Or.inl ⟨rfl, by decide⟩)

/-- C5: generateVerificationEmailToken signs a 24-hour token and stores
it with an expiry of now plus 24 hours; createPasswordResetToken signs
a 10-minute token and stores it with an expiry of now plus 10 minutes;
each stores exactly the token it returns. -/
theorem verification_and_reset_token_minting (u : User) (now : Nat) :
    ((generateVerificationEmailToken u now).1.lifetimeMs = 24 * 60 * 60 * 1000 ∧
     (generateVerificationEmailToken u now).1.secret = Secret.jwtSecret ∧
     (generateVerificationEmailToken u now).2.emailVerificationToken =
       some (generateVerificationEmailToken u now).1 ∧
     (generateVerificationEmailToken u now).2.emailVerificationExpires =
       some (now + 24 * 60 * 60 * 1000)) ∧
    ((createPasswordResetToken u now).1.lifetimeMs = 10 * 60 * 1000 ∧
     (createPasswordResetToken u now).1.secret = Secret.jwtSecret ∧
     (createPasswordResetToken u now).2.resetPasswordToken =
       some (createPasswordResetToken u now).1 ∧
     (createPasswordResetToken u now).2.resetPasswordExpires =
       some (now + 10 * 60 * 1000)) :=
  ⟨⟨rfl, rfl, rfl, rfl⟩, ⟨rfl, rfl, rfl, rfl⟩⟩

/-- C8: generateToken signs the access token with the JWT secret and the
refresh token with the refresh secret; each token fails verification
under the other secret at every time; both tokens embed the same
payload of id, email, role and tokenVersion. -/
theorem generateToken_distinct_secrets (u : User) (now a r t : Nat) :
    (generateToken u now a r).1.secret = Secret.jwtSecret ∧
    (generateToken u now a r).2.secret = Secret.refreshTokenSecret ∧
    jwtVerify (generateToken u now a r).1 Secret.refreshTokenSecret t =
      Except.error "JsonWebTokenError" ∧
    jwtVerify (generateToken u now a r).2 Secret.jwtSecret t =
      Except.error "JsonWebTokenError" ∧
    (generateToken u now a r).1.payload = (generateToken u now a r).2.payload ∧
    (generateToken u now a r).1.payload =
      { id := u.id, email := u.email, role := u.role,
        tokenVersion := u.tokenVersion } := by
  refine ⟨rfl, rfl, ?_, ?_, rfl, rfl⟩ <;>
    simp [jwtVerify, generateToken, jwtSign]

/-- C10: activate sets isActive to true and leaves every other field of
the record unchanged; in particular after deactivate followed by
activate, a token minted before the deactivation still fails the
version comparison. -/
theorem activate_frame_and_staleness (u : User) (now a r : Nat) :
    (activate u).isActive = true ∧
    (activate u).id = u.id ∧
    (activate u).name = u.name ∧
    (activate u).email = u.email ∧
    (activate u).password = u.password ∧
    (activate u).role = u.role ∧
    (activate u).phone = u.phone ∧
    (activate u).isEmailVerified = u.isEmailVerified ∧
    (activate u).isOnline = u.isOnline ∧
    (activate u).lastSeen = u.lastSeen ∧
    (activate u).tokenVersion = u.tokenVersion ∧
    (activate u).emailVerificationToken = u.emailVerificationToken ∧
    (activate u).emailVerificationExpires = u.emailVerificationExpires ∧
    (activate u).resetPasswordToken = u.resetPasswordToken ∧
    (activate u).resetPasswordExpires = u.resetPasswordExpires ∧
    (activate u).refreshToken = u.refreshToken ∧
    sessionVersionCheck (generateToken u now a r).1
      (activate (deactivate u)) = false := by
  refine ⟨rfl, rfl, rfl, rfl, rfl, rfl, rfl, rfl, rfl, rfl, rfl, rfl, rfl,
    rfl, rfl, rfl, ?_⟩
  simp [sessionVersionCheck, generateToken, activate, deactivate, jwtSign]

/-- C9: findByEmailAndValidateCredential raises the identical error
string for an email with no matching record and for an existing record
whose stored password hash does not match the supplied password, so the
two failure causes are indistinguishable by the error raised. -/
theorem uniform_invalid_credentials (db : List User) (email password : String) :
    (findByEmail db email = none →
      findByEmailAndValidateCredential db email password =
        Except.error "Invalid credentials") ∧
    (∀ u h, findByEmail db email = some u → u.password = some h →
      bcryptCompare password h = false →
      findByEmailAndValidateCredential db email password =
        Except.error "Invalid credentials") := by
  constructor
  · intro hnone
    simp [findByEmailAndValidateCredential, hnone]
  · intro u h hfind hpw hcmp
    simp [findByEmailAndValidateCredential, hfind, checkPassword, hpw, hcmp]

/-- Witness for C9: the empty store, and a store holding one record for
the queried email with a non-matching password, both yield the error. -/
theorem uniform_invalid_credentials_witness :
    findByEmailAndValidateCredential [] "a@x.com" "pw" =
      Except.error "Invalid credentials" ∧
    findByEmailAndValidateCredential
      [mkUser "u1" "A" "a@x.com" (some (bcryptHash "right")) "customer"]
      "a@x.com" "wrong" = Except.error "Invalid credentials" :=
  ⟨(uniform_invalid_credentials [] "a@x.com" "pw").1 rfl,
   (uniform_invalid_credentials
      [mkUser "u1" "A" "a@x.com" (some (bcryptHash "right")) "customer"]
      "a@x.com" "wrong").2
      (mkUser "u1" "A" "a@x.com" (some (bcryptHash "right")) "customer")
      (bcryptHash "right") (by decide) rfl (by decide)⟩

/-- C7: when every record that stores the given reset token has its
stored expiry at or before now, findResetToken fails with the invalid
or expired error; when every record that stores the given verification
token has its stored expiry at or before now, findByVerificationToken
never succeeds, whatever the signature check yields. -/
theorem expired_stored_tokens_fail (db : List User) (token : Jwt EmailPayload)
    (now : Nat) :
    ((∀ v ∈ db, v.resetPasswordToken = some token →
        ∃ e, v.resetPasswordExpires = some e ∧ e ≤ now) →
      findResetToken db token now = Except.error "Invalid or expired token") ∧
    ((∀ v ∈ db, v.emailVerificationToken = some token →
        ∃ e, v.emailVerificationExpires = some e ∧ e ≤ now) →
      ∀ u, findByVerificationToken db token now ≠ Except.ok u) := by
  constructor
  · intro hexp
    have hnone : db.find? (fun v => resetTokenLive v token now) = none := by
      rw [List.find?_eq_none]
      intro v hv hlive
      simp only [resetTokenLive, Bool.and_eq_true, decide_eq_true_eq] at hlive
      obtain ⟨htok, hmatch⟩ := hlive
      obtain ⟨e, he, hle⟩ := hexp v hv htok
      rw [he] at hmatch
      simp only [decide_eq_true_eq] at hmatch
      omega
    simp [findResetToken, hnone]
  · intro hexp u
    unfold findByVerificationToken
    rcases hjv : jwtVerify token Secret.jwtSecret now with e | decoded
    · by_cases he : e = "TokenExpiredError" <;> simp [he]
    · have hnone : db.find?
          (fun v => verificationTokenLive v decoded.id token now) = none := by
        rw [List.find?_eq_none]
        intro v hv hlive
        simp only [verificationTokenLive, Bool.and_eq_true,
          decide_eq_true_eq] at hlive
        obtain ⟨⟨hid, htok⟩, hmatch⟩ := hlive
        obtain ⟨e, he, hle⟩ := hexp v hv htok
        rw [he] at hmatch
        simp only [decide_eq_true_eq] at hmatch
        omega
      simp [hnone]

/-- Witness for C7: the sample record stores tokenSample with expiry
100; at time 200 the reset lookup fails with the expected error and the
verification lookup does not return the record even though the token's
own signature window is still open. -/
theorem expired_stored_tokens_fail_witness :
    findResetToken [userWithExpiredTokens] tokenSample 200 =
      Except.error "Invalid or expired token" ∧
    findByVerificationToken [userWithExpiredTokens] tokenSample 200 ≠
      Except.ok userWithExpiredTokens :=
  ⟨(expired_stored_tokens_fail [userWithExpiredTokens] tokenSample 200).1
      (by
        intro v hv htok
        rw [List.mem_singleton] at hv
        subst hv
        exact ⟨100, rfl, by omega⟩),
   (expired_stored_tokens_fail [userWithExpiredTokens] tokenSample 200).2
      (by
        intro v hv htok
        rw [List.mem_singleton] at hv
        subst hv
        exact ⟨100, rfl, by omega⟩)
      userWithExpiredTokens⟩

/-- C6 (amended): token consumption is single-use.  A successful first
consumption clears the stored token and expiry columns, and a second
lookup of the same token value against the saved store fails — with
"Invalid or expired token" on the reset path and with
"Invalid verification token" on the verification path.  The uniqueness
hypothesis says no other record stores the same token value. -/
theorem tokens_single_use (db : List User) (token : Jwt EmailPayload)
    (now : Nat) (pw : String) (u2 : User) (db2 : List User) :
    (consumeResetToken db token now pw = Except.ok (u2, db2) →
      (∀ v ∈ db, v.resetPasswordToken = some token → v.id = u2.id) →
      u2.resetPasswordToken = none ∧ u2.resetPasswordExpires = none ∧
      findResetToken db2 token now = Except.error "Invalid or expired token") ∧
    (consumeVerificationToken db token now = Except.ok (u2, db2) →
      (∀ v ∈ db, v.emailVerificationToken = some token → v.id = u2.id) →
      u2.emailVerificationToken = none ∧ u2.emailVerificationExpires = none ∧
      findByVerificationToken db2 token now =
        Except.error "Invalid verification token") := by
  constructor
  · intro hcons huniq
    unfold consumeResetToken at hcons
    rcases hfind : findResetToken db token now with e | u
    · rw [hfind] at hcons
      simp at hcons
    · rw [hfind] at hcons
      simp only [Except.ok.injEq, Prod.mk.injEq] at hcons
      obtain ⟨hu2, hdb2⟩ := hcons
      subst hu2
      subst hdb2
      refine ⟨rfl, rfl, ?_⟩
      have hnone : (updateUser db (resetPassword u pw)).find?
          (fun v => resetTokenLive v token now) = none := by
        rw [List.find?_eq_none]
        intro v hv hlive
        unfold updateUser at hv
        rw [List.mem_map] at hv
        obtain ⟨w, hw, hveq⟩ := hv
        by_cases hid : w.id = (resetPassword u pw).id
        · rw [if_pos hid] at hveq
          subst hveq
          simp [resetTokenLive, resetPassword] at hlive
        · rw [if_neg hid] at hveq
          subst hveq
          simp only [resetTokenLive, Bool.and_eq_true, decide_eq_true_eq] at hlive
          exact hid (huniq w hw hlive.1)
      simp [findResetToken, hnone]
  · intro hcons huniq
    unfold consumeVerificationToken at hcons
    rcases hfv : findByVerificationToken db token now with e | u
    · rw [hfv] at hcons
      simp at hcons
    · rw [hfv] at hcons
      simp only [Except.ok.injEq, Prod.mk.injEq] at hcons
      obtain ⟨hu2, hdb2⟩ := hcons
      subst hu2
      subst hdb2
      refine ⟨rfl, rfl, ?_⟩
      unfold findByVerificationToken at hfv ⊢
      rcases hjv : jwtVerify token Secret.jwtSecret now with e | decoded
      · rw [hjv] at hfv
        by_cases he : e = "TokenExpiredError" <;> simp [he] at hfv
      · have hnone : (updateUser db (verifyEmail u)).find?
            (fun v => verificationTokenLive v decoded.id token now) = none := by
          rw [List.find?_eq_none]
          intro v hv hlive
          unfold updateUser at hv
          rw [List.mem_map] at hv
          obtain ⟨w, hw, hveq⟩ := hv
          by_cases hid : w.id = (verifyEmail u).id
          · rw [if_pos hid] at hveq
            subst hveq
            simp [verificationTokenLive, verifyEmail] at hlive
          · rw [if_neg hid] at hveq
            subst hveq
            simp only [verificationTokenLive, Bool.and_eq_true,
              decide_eq_true_eq] at hlive
            exact hid (huniq w hw hlive.1.2)
        simp [hnone]

/-- Witness for C6 (amended): the sample record's token is consumed once
on each path at time 500; the second lookup against the saved store
fails with the path's error. -/
theorem tokens_single_use_witness :
    findResetToken (updateUser [userWithStoredTokens]
        (resetPassword userWithStoredTokens "npw")) tokenSample 500 =
      Except.error "Invalid or expired token" ∧
    findByVerificationToken (updateUser [userWithStoredTokens]
        (verifyEmail userWithStoredTokens)) tokenSample 500 =
      Except.error "Invalid verification token" :=
  ⟨((tokens_single_use [userWithStoredTokens] tokenSample 500 "npw"
      (resetPassword userWithStoredTokens "npw")
      (updateUser [userWithStoredTokens]
        (resetPassword userWithStoredTokens "npw"))).1
      rfl (by decide)).2.2,
   ((tokens_single_use [userWithStoredTokens] tokenSample 500 "npw"
      (verifyEmail userWithStoredTokens)
      (updateUser [userWithStoredTokens]
        (verifyEmail userWithStoredTokens))).2
      rfl (by decide)).2.2⟩

/-- Counterexample for C6 as stated: on the verification path the second
consumption of the same token value fails with the error
"Invalid verification token", which is not the claimed string
"Invalid or expired token" (the source's inner throw of
"Invalid or expired verification token" is remapped by its own catch
block, and neither string equals the claimed one). -/
theorem verification_reuse_error_counterexample :
    consumeVerificationToken [userWithStoredTokens] tokenSample 500 =
      Except.ok (verifyEmail userWithStoredTokens,
        [verifyEmail userWithStoredTokens]) ∧
    consumeVerificationToken [verifyEmail userWithStoredTokens]
        tokenSample 500 =
      Except.error "Invalid verification token" ∧
    "Invalid verification token" ≠ "Invalid or expired token" :=
  ⟨rfl, rfl, by decide⟩

end ShoppingApp
